import Mathlib

/-!
Verification of the validation-and-aggregation pipeline of the invoice
generator (sources: `utils/invoice_processor.py`, `utils/invoice_validator.py`,
`utils/store_validator.py`, `utils/pdf_generator.py`, `main.py`).

The embedding is shallow: pandas cells become an inductive `Cell` (string,
finite number, or the NaN/null marker), a DataFrame becomes a column list plus
rows of (column, cell) pairs, monetary floats become exact rationals, and a
Python function that can raise becomes an `Option`/`Except`-valued function
(`none`/`error` = an exception propagates).
-/

namespace InvoiceGen

/-- A pandas cell: a string, a finite number, or the null/NaN marker.
`nan` models the float-NaN null marker produced by pandas/`numpy`
(`pd.isna` is true exactly on it). Numbers are modelled as exact
rationals; float rounding is not modelled. -/
inductive Cell where
  | str (s : String)
  | num (q : ℚ)
  | nan
deriving DecidableEq, Repr

/-- A row: the (column name, cell) pairs of one DataFrame record. -/
def Row : Type := List (String × Cell)

instance : DecidableEq Row := inferInstanceAs (DecidableEq (List (String × Cell)))

/-- `row[col]`: the cell stored under a column name (first matching entry).
Rows of a well-formed DataFrame carry every column of the frame. -/
def getCell (r : Row) (c : String) : Cell :=
  match r.find? (fun p => p.1 = c) with
  | some p => p.2
  | none => Cell.nan

/-- `df[col] = ...` at one row: replace the cell stored under `c`. -/
def rowSetCell (r : Row) (c : String) (v : Cell) : Row :=
  r.map (fun p => if p.1 = c then (p.1, v) else p)

/-- A DataFrame: ordered column names and ordered rows. -/
structure DataFrame where
  cols : List String
  rows : List Row
deriving DecidableEq

/-! ## Python numeric string parsing (`float(s)`)

`float` on a string accepts an optionally signed decimal literal with an
optional fraction and exponent, surrounded by optional whitespace, and raises
`ValueError` otherwise (modelled as `none`). Exotic accepted forms
(`inf`, `nan`, underscore separators) are outside the model; no claim
involves them. All character tests are ASCII, matching the data handled
by this pipeline. -/

/-- ASCII digit test. -/
def isDigitChar (c : Char) : Bool := 48 ≤ c.toNat && c.toNat ≤ 57

/-- Whitespace stripped by Python `float`/`str.strip` (space, \t, \n, \r, \f, \v). -/
def isSpaceChar (c : Char) : Bool :=
  c.toNat = 32 || c.toNat = 9 || c.toNat = 10 || c.toNat = 13 || c.toNat = 12 || c.toNat = 11

/-- Numeric value of a digit run, most significant first. -/
def digitsToNat (l : List Char) : ℕ :=
  l.foldl (fun a c => a * 10 + (c.toNat - 48)) 0

/-- Parse an optional sign; returns the sign as `1` or `-1` and the rest. -/
def parseSign : List Char → ℚ × List Char
  | '+' :: t => (1, t)
  | '-' :: t => (-1, t)
  | t => (1, t)

/-- Parse an optional exponent suffix `[eE][+-]digits`; `none` = malformed. -/
def parseExpPart : List Char → Option ℤ
  | [] => some 0
  | c :: t =>
    if c = 'e' || c = 'E' then
      let (es, t1) := parseSign t
      let ds := t1.takeWhile isDigitChar
      let rest := t1.dropWhile isDigitChar
      if ds = [] ∨ rest ≠ [] then none
      else some ((if es = 1 then 1 else -1) * (digitsToNat ds : ℤ))
    else none

/-- Parse the mantissa `digits[.digits] | .digits` followed by an optional
exponent; at least one digit must be present overall. -/
def parseMantissa (l : List Char) : Option ℚ := Id.run do
  let ip := l.takeWhile isDigitChar
  let r1 := l.dropWhile isDigitChar
  let (fp, r2) :=
    match r1 with
    | '.' :: t => (t.takeWhile isDigitChar, t.dropWhile isDigitChar)
    | _ => ([], r1)
  -- when there is no '.', r2 is r1 itself (possible exponent part)
  if ip = [] ∧ fp = [] then return none
  match parseExpPart r2 with
  | none => return none
  | some e =>
      let base : ℚ := (digitsToNat ip : ℚ) + (digitsToNat fp : ℚ) / ((10 : ℚ) ^ fp.length)
      return some (base * (10 : ℚ) ^ e)

/-- Python `float(s)` on a string: strip surrounding whitespace, optional
sign, decimal mantissa with optional exponent. `none` models `ValueError`. -/
def pyFloatString (s : String) : Option ℚ :=
  let l := ((s.data.dropWhile isSpaceChar).reverse.dropWhile isSpaceChar).reverse
  let (sign, l1) := parseSign l
  (parseMantissa l1).map (fun q => sign * q)

/-! ## Currency/Type Normalizer (`InvoiceProcessor.clean_currency`)

```python
def clean_currency(self, x) -> float:
    if pd.isna(x):
        return 0.0
    if isinstance(x, str):
        return float(x.replace('$', '').replace(',', '') or 0)
    return float(x or 0)
```

For a null/NaN cell the result is `0.0`. For a string, all `'$'` and `','`
characters are removed; an empty remainder is replaced by `0` (so the result
is `0.0`), and otherwise the remainder goes through `float(...)`, which
raises `ValueError` on non-numeric content (`none` below). For a number `x`,
`float(x or 0)` is `x` itself (when `x == 0` the falsy branch yields
`float(0) = 0.0 = x`). -/
def clean_currency (x : Cell) : Option ℚ :=
  match x with
  | Cell.nan => some 0
  | Cell.str s =>
      let stripped : List Char := s.data.filter (fun c => ¬ (c = '$' ∨ c = ','))
      if stripped = [] then some 0
      else pyFloatString ⟨stripped⟩
  | Cell.num q => some q

/-- The fifteen monetary column names of `clean_monetary_columns`. -/
def monetary_columns : List String :=
  ["Additional Fees",
   "Sum of Total payout",
   "Final Net Payout with Agg Fee",
   "Sum of Sales (excl. tax)",
   "Sum of Passed on Tax",
   "Sum of Marketplace Facilitator Tax",
   "Sum of Marketplace fee",
   "Sum of Promotions on items",
   "Refund",
   "delivery fee",
   "Other 3P fee",
   "adjustment",
   "store_payment",
   "tips",
   "ad_fee"]

/-- Sequential `Option`-valued map: the first raising element propagates
(models a Python loop or vectorized `apply` whose exception aborts). -/
def optMapList {α β : Type} (f : α → Option β) : List α → Option (List β)
  | [] => some []
  | a :: t =>
    match f a with
    | none => none
    | some b =>
      match optMapList f t with
      | none => none
      | some bs => some (b :: bs)

/-- One iteration of the `clean_monetary_columns` loop: if column `c` is
present, replace every cell of the column by its `clean_currency` value
(`df[column] = df[column].apply(self.clean_currency)`); a raising cell
aborts the whole construction (`none`). -/
def cleanColumnInDf (df : DataFrame) (c : String) : Option DataFrame :=
  if c ∈ df.cols then
    (optMapList (fun r =>
      (clean_currency (getCell r c)).map (fun q => rowSetCell r c (Cell.num q))) df.rows).map
      (fun rs => ⟨df.cols, rs⟩)
  else some df

/-- The loop of `clean_monetary_columns` over a list of column names. -/
def cleanColsLoop : List String → DataFrame → Option DataFrame
  | [], df => some df
  | c :: t, df =>
    match cleanColumnInDf df c with
    | none => none
    | some df1 => cleanColsLoop t df1

/-- `InvoiceProcessor.clean_monetary_columns` (run by `__init__` on the
caller's DataFrame before any validation or processing call). -/
def clean_monetary_columns (df : DataFrame) : Option DataFrame :=
  cleanColsLoop monetary_columns df

/-! ## Row Validator (`utils/invoice_validator.py`, class `InvoiceValidator`)

Messages and offending values of `ValidationError` records are elided; the
embedding keeps the fields the claims are about: kind, row index, field,
severity. `row_index` is the pandas index label, which for the default
range index is the row position. -/

/-- `ValidationError` of `invoice_validator.py` (dataclass). -/
structure VIssue where
  error_type : String
  row_index : Option ℕ
  field : Option String
  severity : String
deriving DecidableEq, Repr

/-- The Python types appearing in the validator's `required_columns`
configuration: `str`, the tuple `(int, float)`, and `float`. -/
inductive PyColType where
  | tStr
  | tIntFloat
  | tFloat
deriving DecidableEq, Repr

/-- Default `config['required_columns']` of `InvoiceValidator.__init__`,
in dict insertion order. -/
def validatorRequiredColumns : List (String × PyColType) :=
  [("BillOwnerName", PyColType.tStr),
   ("Platform_x", PyColType.tStr),
   ("Order Week", PyColType.tStr),
   ("Sum of Order Count", PyColType.tIntFloat),
   ("Sum of Total payout", PyColType.tFloat),
   ("Sum of Sales (excl. tax)", PyColType.tFloat),
   ("Sum of Passed on Tax", PyColType.tFloat),
   ("Sum of Marketplace Facilitator Tax", PyColType.tFloat),
   ("Additional Fees", PyColType.tFloat),
   ("Final Net Payout with Agg Fee", PyColType.tFloat)]

/-- The membership test `self.config['required_columns'][field] in (int, float)`
of `_validate_numeric_fields`. `float` is a member of the tuple `(int, float)`;
`str` is not; and the value `(int, float)` stored for `'Sum of Order Count'`
is a tuple, which `in` compares against `int` and against `float` — both
comparisons fail, so it is not a member either. -/
def memIntFloat : PyColType → Bool
  | PyColType.tFloat => true
  | _ => false

/-- The numeric fields iterated by `_validate_numeric_fields` (default
config): required columns whose configured type passes `memIntFloat`. -/
def numericFieldsList : List String :=
  (validatorRequiredColumns.filter (fun p => memIntFloat p.2)).map Prod.fst

/-- Python `str.strip` with Python's whitespace set. -/
def pyStrip (s : String) : String :=
  ⟨((s.data.dropWhile isSpaceChar).reverse.dropWhile isSpaceChar).reverse⟩

/-- `pd.isna(x) or str(x).strip() == ''`: a null marker, or a string that is
blank after stripping (`str(x)` of a number is never blank). -/
def ownerMissing : Cell → Bool
  | Cell.nan => true
  | Cell.str s => pyStrip s = ""
  | Cell.num _ => false

/-- Default `config['valid_platforms']`. -/
def validPlatformCells : List Cell :=
  [Cell.str "Grubhub", Cell.str "DoorDash", Cell.str "UberEats"]

/-- `float(value)` on a cell. The outer `Option` is exception behaviour
(`none` = `ValueError`); the inner `Option ℚ` lifts NaN (`none` = the float
NaN, on which every ordered comparison is false). -/
def pyFloatCell : Cell → Option (Option ℚ)
  | Cell.nan => some none
  | Cell.num q => some (some q)
  | Cell.str s => (pyFloatString s).map some

/-- `value < t` on a possibly-NaN float (false on NaN). -/
def fvLtB (fv : Option ℚ) (t : ℚ) : Bool :=
  match fv with
  | some q => decide (q < t)
  | none => false

/-- `abs(value) > t` on a possibly-NaN float (false on NaN). -/
def fvAbsGtB (fv : Option ℚ) (t : ℚ) : Bool :=
  match fv with
  | some q => decide (t < |q|)
  | none => false

/-- Loop body of `_validate_numeric_fields` for one field of one row:
null check, then `float(value)` under try/except, then the negative-order
and suspicious-amount checks. Returns (errors, warnings) in append order.
Default thresholds: negative order count `0`, suspicious payout `1000000`. -/
def numericFieldIssues (i : ℕ) (f : String) (v : Cell) : List VIssue × List VIssue :=
  let nullErr : List VIssue :=
    if v = Cell.nan then [⟨"null_value", some i, some f, "error"⟩] else []
  match pyFloatCell v with
  | none =>
      (nullErr ++ (if f ≠ "Order Week" then [⟨"invalid_number", some i, some f, "error"⟩] else []),
       [])
  | some fv =>
      let negErr : List VIssue :=
        if f = "Sum of Order Count" ∧ fvLtB fv 0 then
          [⟨"negative_orders", some i, some f, "error"⟩] else []
      let susWarn : List VIssue :=
        if f = "Sum of Total payout" ∧ fvAbsGtB fv 1000000 then
          [⟨"suspicious_amount", some i, some f, "warning"⟩] else []
      (nullErr ++ negErr, susWarn)

/-- `_validate_row`: owner check, platform check, then all numeric fields.
Returns (errors, warnings) of the row in append order. -/
def rowIssues (i : ℕ) (r : Row) : List VIssue × List VIssue :=
  let ownerErr : List VIssue :=
    if ownerMissing (getCell r "BillOwnerName") then
      [⟨"invalid_owner", some i, some "BillOwnerName", "error"⟩] else []
  let platWarn : List VIssue :=
    if getCell r "Platform_x" ∈ validPlatformCells then []
    else [⟨"invalid_platform", some i, some "Platform_x", "warning"⟩]
  let numeric := numericFieldsList.map (fun f => numericFieldIssues i f (getCell r f))
  (ownerErr ++ numeric.flatMap Prod.fst, platWarn ++ numeric.flatMap Prod.snd)

/-- Numeric reading of a cell for a pandas `.sum()` over a numeric column:
NaN contributes nothing (skipna). String cells do not occur in the numeric
columns this is applied to. -/
def cellQ : Cell → ℚ
  | Cell.num q => q
  | _ => 0

/-- First-seen-order deduplication (`pandas.unique` order): keep the first
occurrence of each element. -/
def firstSeen {α : Type} [DecidableEq α] : List α → List α
  | [] => []
  | a :: t => a :: (firstSeen t).filter (fun x => x ≠ a)

/-- pandas `==` comparison between cells: NaN equals nothing. -/
def pandasCellEq (a b : Cell) : Bool :=
  match a, b with
  | Cell.nan, _ => false
  | _, Cell.nan => false
  | a, b => decide (a = b)

/-- `_validate_totals`: per distinct `BillOwnerName` value (first-seen
order), compare the owner's summed total payout against the summed final
net payout; warn `total_mismatch` when the absolute difference exceeds
`total_payout * maximum_payout_percentage` (default `1.1`). -/
def totalsWarnings (df : DataFrame) : List VIssue :=
  (firstSeen (df.rows.map (fun r => getCell r "BillOwnerName"))).flatMap (fun owner =>
    let od := df.rows.filter (fun r => pandasCellEq (getCell r "BillOwnerName") owner)
    let tp := (od.map (fun r => cellQ (getCell r "Sum of Total payout"))).sum
    let fnp := (od.map (fun r => cellQ (getCell r "Final Net Payout with Agg Fee"))).sum
    if ¬ (|tp - fnp| ≤ tp * 1.1) then
      [⟨"total_mismatch", none, some "total_validation", "warning"⟩]
    else [])

/-- Result of one `validate_dataframe` call: the returned pair
(`passed`, second tuple component), plus the validator's `errors` and
`warnings` attributes after the call. -/
structure VRun where
  passed : Bool
  returned : List VIssue
  errors : List VIssue
  warnings : List VIssue
deriving DecidableEq, Repr

/-- `_check_missing_columns`: required column names absent from the frame. -/
def missing_columns_of (df : DataFrame) : List String :=
  (validatorRequiredColumns.map Prod.fst).filter (fun c => c ∉ df.cols)

/-- `InvoiceValidator.validate_dataframe`. On missing required columns it
appends a single `missing_columns` error and returns
`(False, self.warnings)` — note the second component is the *warnings*
list. Otherwise it validates every row, then cross-row totals, and returns
`(len(self.errors) == 0, self.warnings)`. -/
def validate_dataframe (df : DataFrame) : VRun :=
  if missing_columns_of df ≠ [] then
    { passed := false, returned := [],
      errors := [⟨"missing_columns", none, none, "error"⟩], warnings := [] }
  else
    let pairs := df.rows.enum.map (fun p => rowIssues p.1 p.2)
    let errs := pairs.flatMap Prod.fst
    let warns := pairs.flatMap Prod.snd ++ totalsWarnings df
    { passed := errs.isEmpty, returned := warns, errors := errs, warnings := warns }

/-! ## Reconciliation Engine (`utils/store_validator.py`, class `StoreValidator`)

`_clean_names` lowers the names, strips non-word/non-space characters
(regex `[^\w\s]`, ASCII range modelled), strips surrounding whitespace and
collects the results into a set. pandas `.str` operations turn a
non-string cell into NaN; since `np.nan` is a single Python object, all
such cells collapse to one set element, modelled as `none`.
The fuzzy-candidate list (`_find_potential_matches`, a `rapidfuzz`
similarity scan over the two difference sets) cannot raise and is not
referenced by any claim; it is left out of the result model. -/

/-- ASCII lower-casing (`str.lower` restricted to the ASCII range). -/
def pyLowerChar (c : Char) : Char :=
  if 65 ≤ c.toNat ∧ c.toNat ≤ 90 then Char.ofNat (c.toNat + 32) else c

/-- Characters kept by `replace(r'[^\w\s]', '')`: ASCII word characters
(letters, digits, underscore) and whitespace. -/
def keepWordOrSpace (c : Char) : Bool :=
  isDigitChar c || (97 ≤ c.toNat && c.toNat ≤ 122) ||
    (65 ≤ c.toNat && c.toNat ≤ 90) || c = '_' || isSpaceChar c

/-- `_clean_names` applied to one string: lower, drop punctuation, strip. -/
def cleanName (s : String) : String :=
  pyStrip ⟨(s.data.map pyLowerChar).filter keepWordOrSpace⟩

/-- Set element contributed by one cell: `some cleanedName` for a string,
`none` (the single NaN) otherwise. -/
def cleanCellName : Cell → Option String
  | Cell.str s => some (cleanName s)
  | _ => none

/-- The cleaned-name set of one DataFrame column. -/
def cleanedNames (df : DataFrame) (col : String) : Finset (Option String) :=
  (df.rows.map (fun r => cleanCellName (getCell r col))).toFinset

/-- Python `round` at the exact rational value: round half to even.
(The float representation artifacts of `round` on floats are not
modelled; no claim depends on the rounded value.) -/
def roundHalfEven (q : ℚ) : ℤ :=
  if q - ⌊q⌋ < 1 / 2 then ⌊q⌋
  else if 1 / 2 < q - ⌊q⌋ then ⌊q⌋ + 1
  else if 2 ∣ ⌊q⌋ then ⌊q⌋ else ⌊q⌋ + 1

/-- `round(x, 2)`. -/
def pyRound2 (q : ℚ) : ℚ := (roundHalfEven (q * 100) : ℚ) / 100

/-- Exceptions `compare_stores` can raise: `KeyError` for a missing
name column, `ZeroDivisionError` from the `match_percentage` division. -/
inductive CmpErr where
  | keyError
  | zeroDivision
deriving DecidableEq, Repr

/-- The `summary` dict built by `compare_stores` (the
`potential_matches_count` entry is omitted with the fuzzy list). -/
structure StoreCmpSummary where
  matched_count : ℕ
  missing_in_master_count : ℕ
  missing_in_invoice_count : ℕ
  total_invoice_stores : ℕ
  total_master_stores : ℕ
  match_percentage : ℚ
deriving DecidableEq, Repr

/-- The `ValidationResult` fields the claims are about (sets rather than
the arbitrarily-ordered `list(...)` of the source). -/
structure StoreCmpResult where
  matched : Finset (Option String)
  missing_in_master : Finset (Option String)
  missing_in_invoice : Finset (Option String)
  summary : StoreCmpSummary
deriving DecidableEq

/-- `StoreValidator.compare_stores`: clean both name columns, take the
set intersection and the two set differences, then build the summary —
whose `match_percentage` divides by `len(invoice_stores)` and raises
`ZeroDivisionError` when the cleaned invoice name set is empty. -/
def compare_stores (invoice_df master_df : DataFrame) : Except CmpErr StoreCmpResult :=
  if "Restaurant" ∉ invoice_df.cols then Except.error CmpErr.keyError
  else if "RestaurantName" ∉ master_df.cols then Except.error CmpErr.keyError
  else
    let invoice_stores := cleanedNames invoice_df "Restaurant"
    let master_stores := cleanedNames master_df "RestaurantName"
    let matched := invoice_stores ∩ master_stores
    let missing_in_master := invoice_stores \ master_stores
    let missing_in_invoice := master_stores \ invoice_stores
    if invoice_stores.card = 0 then Except.error CmpErr.zeroDivision
    else
      Except.ok
        { matched := matched
          missing_in_master := missing_in_master
          missing_in_invoice := missing_in_invoice
          summary :=
            { matched_count := matched.card
              missing_in_master_count := missing_in_master.card
              missing_in_invoice_count := missing_in_invoice.card
              total_invoice_stores := invoice_stores.card
              total_master_stores := master_stores.card
              match_percentage :=
                pyRound2 ((matched.card : ℚ) / (invoice_stores.card : ℚ) * 100) } }

/-! ## Batch Document Generator (`main.py` `generate_pdfs`) -/

/-- Split entries into fixed-size batches (the sub-batches of the batch
document generator). -/
def chunkBatches {α : Type} (n : ℕ) : List α → List (List α)
  | [] => []
  | x :: xs => (x :: xs.take (n - 1)) :: chunkBatches n (xs.drop (n - 1))
termination_by l => l.length
decreasing_by
  rw [List.length_drop]
  exact Nat.lt_succ_of_le (Nat.sub_le _ _)

/-- Modelled from the spec: `ModernPDFGenerator.generate_pdfs_batch`.
`main.py` imports `ModernPDFGenerator` from `utils.pdf_generator` and
awaits `generate_pdfs_batch(data_list=bill_owners, batch_size=5)`, but the
class is missing from the sources (`src/utils/pdf_generator.py` only
defines `PDFInvoiceGenerator`, whose `generate_pdfs_for_all_owners` is not
the method invoked). Per spec §4.5: entries are split into fixed-size
batches; within a batch rendering runs concurrently under a bounded pool;
the overall result is the concatenation of all successful paths across
sub-batches in submission order; failed entries are logged and silently
excluded and never abort the batch. The per-entry render outcome is
abstracted as a function into `Option` (`none` = that entry raised). -/
def generate_pdfs_batch {α β : Type} (render : α → Option β) (batchSize : ℕ)
    (entries : List α) : List β :=
  ((chunkBatches batchSize entries).map (fun b => b.filterMap render)).flatten

/-- The decision `main.py:generate_pdfs` takes on the batch result
(batch size 5): raise `Exception('No PDFs were generated successfully')`
when no file was generated, otherwise continue with the generated paths.
(The surrounding HTTP plumbing, ZIP packaging and cleanup are I/O outside
the embedding.) -/
def generate_pdfs {α β : Type} (render : α → Option β)
    (bill_owners : List α) : Except String (List β) :=
  let generated_files := generate_pdfs_batch render 5 bill_owners
  if generated_files.isEmpty then Except.error "No PDFs were generated successfully"
  else Except.ok generated_files

/-! ## Aggregation Engine (`utils/invoice_processor.py`, class `InvoiceProcessor`)

`InvoiceProcessor.__init__` stores the caller's DataFrame and immediately
runs `clean_monetary_columns` on it (in place); `process_invoices` then
runs the processor's own `validate_data` (raising `ValueError` when it
returns false), strips whitespace from column names, and builds the
owner → restaurant → platform tree with `groupby` at each level. pandas
`groupby(keys)` uses its default `sort=True`: the groups are iterated in
ascending sorted key order, and rows whose key is NaN are dropped. Cells
of the string-typed key columns are strings or NaN in any frame accepted
by `validate_data` (its type check rejects numbers there), so key
extraction is modelled on string cells only. -/

/-- `required_columns` of `InvoiceProcessor` (dict order). All value
types are `str` or `float` here. -/
def procRequiredColumns : List (String × PyColType) :=
  [("BillOwnerName", PyColType.tStr),
   ("Order Week", PyColType.tStr),
   ("Restaurant", PyColType.tStr),
   ("Platform_x", PyColType.tStr),
   ("Sum of Order Count", PyColType.tFloat),
   ("Sum of Total payout", PyColType.tFloat),
   ("Final Net Payout with Agg Fee", PyColType.tFloat),
   ("Sum of Sales (excl. tax)", PyColType.tFloat),
   ("Sum of Passed on Tax", PyColType.tFloat),
   ("Sum of Marketplace Facilitator Tax", PyColType.tFloat),
   ("Additional Fees", PyColType.tFloat),
   ("ad_fee", PyColType.tFloat)]

/-- `isinstance(x, t) or isinstance(float(x), t)` on one non-null cell;
`none` = `float(x)` raised. For `t = str` the second disjunct is always
false (a float is never a `str`); for `t = float` a number passes directly
and a string passes iff it parses. `tIntFloat` does not occur in
`procRequiredColumns`. -/
def typeCheckCell : PyColType → Cell → Option Bool
  | PyColType.tStr, Cell.str _ => some true
  | PyColType.tStr, _ => some false
  | PyColType.tFloat, Cell.str s => (pyFloatString s).map (fun _ => true)
  | PyColType.tFloat, _ => some true
  | PyColType.tIntFloat, Cell.str s => (pyFloatString s).map (fun _ => true)
  | PyColType.tIntFloat, _ => some true

/-- `all(...)` over the non-null cells of one column: short-circuits on
the first failing cell, so a later raising cell is not reached. -/
def checkColumnTypes (ty : PyColType) : List Cell → Option Bool
  | [] => some true
  | v :: t =>
    match typeCheckCell ty v with
    | none => none
    | some false => some false
    | some true => checkColumnTypes ty t

/-- `_validate_data_types`: per required column, the non-null cells must
pass the isinstance check; returns the columns that fail (each appends one
error). A raising column aborts (`none`). -/
def dataTypesLoop (df : DataFrame) : List (String × PyColType) → Option (List String)
  | [] => some []
  | (c, ty) :: t =>
    match checkColumnTypes ty ((df.rows.map (fun r => getCell r c)).filter
        (fun v => v ≠ Cell.nan)) with
    | none => none
    | some ok =>
      (dataTypesLoop df t).map (fun rest => if ok then rest else c :: rest)

/-- One element of the vectorized comparison `df[col] < 0`: NaN compares
false; comparing a string against a number raises `TypeError`. -/
def cellLtZeroCmp : Cell → Option Bool
  | Cell.num q => some (decide (q < 0))
  | Cell.nan => some false
  | Cell.str _ => none

/-- One element of the vectorized comparison `df[col] > t`. -/
def cellGtCmp (t : ℚ) : Cell → Option Bool
  | Cell.num q => some (decide (t < q))
  | Cell.nan => some false
  | Cell.str _ => none

/-- `InvoiceProcessor.validate_data`: missing-column check (returns false
at once), then `_validate_data_types`, then `_validate_values` (negative
order counts are an error; unknown platforms and payouts above `10000` are
warnings only, but their vectorized comparisons can still raise). The
result is `errors == []`; `none` models a raised exception. -/
def validate_data (df : DataFrame) : Option Bool :=
  if (procRequiredColumns.map Prod.fst).filter (fun c => c ∉ df.cols) ≠ [] then
    some false
  else
    match dataTypesLoop df procRequiredColumns with
    | none => none
    | some badCols =>
      match optMapList cellLtZeroCmp (df.rows.map (fun r => getCell r "Sum of Order Count")) with
      | none => none
      | some negs =>
        match optMapList (cellGtCmp 10000) (df.rows.map (fun r => getCell r "Sum of Total payout")) with
        | none => none
        | some _ => some (decide (badCols = []) && !negs.any id)

/-- `clean_column_names`: strip whitespace from every column name. -/
def cleanColumnNames (df : DataFrame) : DataFrame :=
  ⟨df.cols.map pyStrip, df.rows.map (fun r => r.map (fun p => (pyStrip p.1, p.2)))⟩

/-- groupby key from one cell: a string keys the row, NaN drops it
(`groupby` default `dropna=True`). Non-string, non-null key cells cannot
occur in a frame accepted by `validate_data`. -/
def strCellKey : Cell → Option String
  | Cell.str s => some s
  | _ => none

/-- Key of the first-level `groupby(['BillOwnerName', 'Order Week'])`. -/
def ownerKeyOf (r : Row) : Option (String × String) :=
  match strCellKey (getCell r "BillOwnerName"), strCellKey (getCell r "Order Week") with
  | some o, some w => some (o, w)
  | _, _ => none

/-- Key of the `groupby('Restaurant')` level. -/
def restKeyOf (r : Row) : Option String := strCellKey (getCell r "Restaurant")

/-- Key of the `groupby('Platform_x')` level. -/
def platKeyOf (r : Row) : Option String := strCellKey (getCell r "Platform_x")

/-- Strict lexicographic comparison of char lists by code point —
Python's string `<`. (Defined from scratch because it must evaluate by
kernel reduction.) -/
def strLtL : List Char → List Char → Bool
  | [], [] => false
  | [], _ :: _ => true
  | _ :: _, [] => false
  | a :: s, b :: t =>
    if a.toNat < b.toNat then true
    else if b.toNat < a.toNat then false
    else strLtL s t

/-- Python string `<=`: not strictly greater. -/
def pyStrLe (a b : String) : Prop := strLtL b.data a.data = false

instance : DecidableRel pyStrLe := fun a b =>
  inferInstanceAs (Decidable (strLtL b.data a.data = false))

/-- Python tuple `<=` on (owner, week) pairs: lexicographic. -/
def tupLe (a b : String × String) : Prop :=
  strLtL a.1.data b.1.data = true ∨ (a.1 = b.1 ∧ pyStrLe a.2 b.2)

instance : DecidableRel tupLe := fun a b =>
  inferInstanceAs (Decidable (strLtL a.1.data b.1.data = true ∨ (a.1 = b.1 ∧ pyStrLe a.2 b.2)))

/-- pandas `groupby` with `sort=True` (the default used throughout
`process_invoices`): distinct non-null keys in ascending order, each with
the sub-frame of its rows in original order. -/
def groupby {κ : Type} [DecidableEq κ] (key : Row → Option κ) (le : κ → κ → Prop)
    [DecidableRel le] (rows : List Row) : List (κ × List Row) :=
  (List.insertionSort le (firstSeen (rows.filterMap key))).map
    (fun k => (k, rows.filter (fun r => key r = some k)))

/-- pandas `.sum()` of one column over a group (skipna). -/
def colSum (rows : List Row) (c : String) : ℚ :=
  (rows.map (fun r => cellQ (getCell r c))).sum

/-- pandas `.max()` of one column over a group. Groups produced by
`groupby` are nonempty, so the `[]` case is unreachable; the cleaned
monetary column it is applied to holds no NaN (`clean_currency` maps NaN
to `0.0`). -/
def colMax (rows : List Row) (c : String) : ℚ :=
  match rows.map (fun r => cellQ (getCell r c)) with
  | [] => 0
  | q :: qs => qs.foldl max q

/-- Python `int()` on a float: truncation toward zero. -/
def pyInt (q : ℚ) : ℤ := if 0 ≤ q then ⌊q⌋ else ⌈q⌉

/-- `platform_info` dict of `_process_restaurant_breakdown`. -/
structure PlatformInfo where
  platform : String
  orders : ℤ
  gross_pay : ℚ
  taxes_transferred : ℚ
  taxes_platform : ℚ
  subtotal : ℚ
  error_charges : ℚ
  net_pay : ℚ
  marketplace_fee : ℚ
deriving DecidableEq, Repr

/-- `restaurant_info` dict. -/
structure RestaurantInfo where
  name : String
  platforms : List PlatformInfo
deriving DecidableEq, Repr

/-- `financials` dict of `process_invoices`. -/
structure Financials where
  total_payout : ℚ
  final_net_payout : ℚ
  ad_fees : ℚ
  aggregator_fee : ℚ
deriving DecidableEq, Repr

/-- `owner_info` dict of `process_invoices`. -/
structure OwnerInfo where
  name : String
  period : String
  restaurants : List RestaurantInfo
  financials : Financials
deriving DecidableEq, Repr

/-- The `platform_info` dict for one platform group: every numeric field
is a column sum over the group's rows (`orders` through `int(...)`),
`error_charges` is the constant `0.0`. -/
def platformRecord (p : String) (rows : List Row) : PlatformInfo :=
  { platform := p
    orders := pyInt (colSum rows "Sum of Order Count")
    gross_pay := colSum rows "Sum of Total payout"
    taxes_transferred := colSum rows "Sum of Passed on Tax"
    taxes_platform := colSum rows "Sum of Marketplace Facilitator Tax"
    subtotal := colSum rows "Sum of Sales (excl. tax)"
    error_charges := 0
    net_pay := colSum rows "Final Net Payout with Agg Fee"
    marketplace_fee := colSum rows "Sum of Marketplace fee" }

/-- One platform group with exception behaviour: `'Sum of Marketplace fee'`
is the one referenced column that the required-column check does not
guarantee, so its lookup can raise `KeyError` (`none`). -/
def platformInfoOf (cols : List String) (p : String) (rows : List Row) : Option PlatformInfo :=
  if "Sum of Marketplace fee" ∈ cols then some (platformRecord p rows)
  else none

/-- One restaurant group of `_process_restaurant_breakdown`. -/
def restaurantInfoOf (cols : List String) (rn : String) (rows : List Row) :
    Option RestaurantInfo :=
  (optMapList (fun g => platformInfoOf cols g.1 g.2) (groupby platKeyOf pyStrLe rows)).map
    (fun ps => ⟨rn, ps⟩)

/-- One owner-period group of `process_invoices`: the four financial
aggregates (sums, and the **maximum** of `'Additional Fees'`) plus the
nested restaurant breakdown. -/
def ownerInfoOf (cols : List String) (k : String × String) (rows : List Row) :
    Option OwnerInfo :=
  (optMapList (fun g => restaurantInfoOf cols g.1 g.2) (groupby restKeyOf pyStrLe rows)).map
    (fun rs =>
      { name := k.1
        period := k.2
        restaurants := rs
        financials :=
          { total_payout := colSum rows "Sum of Total payout"
            final_net_payout := colSum rows "Final Net Payout with Agg Fee"
            ad_fees := colSum rows "ad_fee"
            aggregator_fee := colMax rows "Additional Fees" } })

/-- The `restaurant_info` dict for one restaurant group, when every
platform lookup succeeds. -/
def restaurantRecord (rn : String) (rows : List Row) : RestaurantInfo :=
  ⟨rn, (groupby platKeyOf pyStrLe rows).map (fun g => platformRecord g.1 g.2)⟩

/-- The `owner_info` dict for one owner-period group, when every lookup
succeeds. -/
def ownerRecord (k : String × String) (rows : List Row) : OwnerInfo :=
  { name := k.1
    period := k.2
    restaurants := (groupby restKeyOf pyStrLe rows).map (fun g => restaurantRecord g.1 g.2)
    financials :=
      { total_payout := colSum rows "Sum of Total payout"
        final_net_payout := colSum rows "Final Net Payout with Agg Fee"
        ad_fees := colSum rows "ad_fee"
        aggregator_fee := colMax rows "Additional Fees" } }

/-- `InvoiceProcessor.process_invoices` on the processor's DataFrame:
validate (raising `ValueError` on failure), strip column names, group and
aggregate. -/
def process_invoices (df : DataFrame) : Option (List OwnerInfo) :=
  match validate_data df with
  | none => none
  | some false => none
  | some true =>
    let dfc := cleanColumnNames df
    optMapList (fun g => ownerInfoOf dfc.cols g.1 g.2) (groupby ownerKeyOf tupLe dfc.rows)

/-- `InvoiceProcessor(df).process_invoices()`: construction cleans the
monetary columns first, then processing runs on the cleaned frame. -/
def invoiceProcessorRun (df : DataFrame) : Option (List OwnerInfo) :=
  (clean_monetary_columns df).bind process_invoices

/-- The rows of one owner-period group. -/
def ownerRows (dfc : DataFrame) (o w : String) : List Row :=
  dfc.rows.filter (fun r => ownerKeyOf r = some (o, w))

/-- The rows of one (owner, period, restaurant, platform) innermost group. -/
def platRows (dfc : DataFrame) (o w rn p : String) : List Row :=
  ((ownerRows dfc o w).filter (fun r => restKeyOf r = some rn)).filter
    (fun r => platKeyOf r = some p)

/-! ## Concrete frames used by counterexamples and witnesses -/

instance {ε α : Type} [DecidableEq ε] [DecidableEq α] : DecidableEq (Except ε α) :=
  fun x y =>
    match x, y with
    | Except.error a, Except.error b =>
        if h : a = b then isTrue (by rw [h]) else isFalse (fun hc => h (by injection hc))
    | Except.ok a, Except.ok b =>
        if h : a = b then isTrue (by rw [h]) else isFalse (fun hc => h (by injection hc))
    | Except.error _, Except.ok _ => isFalse (fun hc => Except.noConfusion hc)
    | Except.ok _, Except.error _ => isFalse (fun hc => Except.noConfusion hc)

/-- A frame with one row that misses the required column `BillOwnerName`
(all other validator-required columns present). -/
def c2Df : DataFrame :=
  ⟨["Platform_x", "Order Week", "Sum of Order Count", "Sum of Total payout",
    "Sum of Sales (excl. tax)", "Sum of Passed on Tax",
    "Sum of Marketplace Facilitator Tax", "Additional Fees",
    "Final Net Payout with Agg Fee"],
   [[("Platform_x", Cell.str "DoorDash"), ("Order Week", Cell.str "W1"),
     ("Sum of Order Count", Cell.num 1), ("Sum of Total payout", Cell.num 10),
     ("Sum of Sales (excl. tax)", Cell.num 9), ("Sum of Passed on Tax", Cell.num 0),
     ("Sum of Marketplace Facilitator Tax", Cell.num 0),
     ("Additional Fees", Cell.num 1),
     ("Final Net Payout with Agg Fee", Cell.num 9)]]⟩

/-- A frame with every validator-required column and one row whose
`Sum of Order Count` is `-5` (below the default threshold `0`). -/
def c3Df : DataFrame :=
  ⟨["BillOwnerName", "Platform_x", "Order Week", "Sum of Order Count",
    "Sum of Total payout", "Sum of Sales (excl. tax)", "Sum of Passed on Tax",
    "Sum of Marketplace Facilitator Tax", "Additional Fees",
    "Final Net Payout with Agg Fee"],
   [[("BillOwnerName", Cell.str "A"), ("Platform_x", Cell.str "DoorDash"),
     ("Order Week", Cell.str "W1"), ("Sum of Order Count", Cell.num (-5)),
     ("Sum of Total payout", Cell.num 20), ("Sum of Sales (excl. tax)", Cell.num 18),
     ("Sum of Passed on Tax", Cell.num 0),
     ("Sum of Marketplace Facilitator Tax", Cell.num 0),
     ("Additional Fees", Cell.num 5),
     ("Final Net Payout with Agg Fee", Cell.num 18)]]⟩

/-- Transactional (invoice) frame with restaurant keys 1, 2, 3. -/
def c7InvoiceDf : DataFrame :=
  ⟨["Restaurant"],
   [[("Restaurant", Cell.str "1")],
    [("Restaurant", Cell.str "2")],
    [("Restaurant", Cell.str "3")]]⟩

/-- Reference (master) frame with restaurant keys 2, 3, 4. -/
def c7MasterDf : DataFrame :=
  ⟨["RestaurantName"],
   [[("RestaurantName", Cell.str "2")],
    [("RestaurantName", Cell.str "3")],
    [("RestaurantName", Cell.str "4")]]⟩

/-- An invoice frame with a `Restaurant` column but zero rows. -/
def c7EmptyInvoiceDf : DataFrame := ⟨["Restaurant"], []⟩

/-- A second zero-row invoice frame (extra column). -/
def c9EmptyInvoiceDf : DataFrame := ⟨["Restaurant", "Store ID"], []⟩

/-- Master frame used by the C9 witness. -/
def c9MasterDf : DataFrame := ⟨["RestaurantName"], [[("RestaurantName", Cell.str "m")]]⟩

/-- The column list of the aggregation examples: the processor's twelve
required columns plus `'Sum of Marketplace fee'`. -/
def aggCols : List String :=
  ["BillOwnerName", "Order Week", "Restaurant", "Platform_x",
   "Sum of Order Count", "Sum of Total payout", "Final Net Payout with Agg Fee",
   "Sum of Sales (excl. tax)", "Sum of Passed on Tax",
   "Sum of Marketplace Facilitator Tax", "Additional Fees", "ad_fee",
   "Sum of Marketplace fee"]

/-- One full row of the aggregation examples. -/
def aggRow (owner week rest plat : String) (oc tp fn af : ℚ) : Row :=
  [("BillOwnerName", Cell.str owner), ("Order Week", Cell.str week),
   ("Restaurant", Cell.str rest), ("Platform_x", Cell.str plat),
   ("Sum of Order Count", Cell.num oc), ("Sum of Total payout", Cell.num tp),
   ("Final Net Payout with Agg Fee", Cell.num fn),
   ("Sum of Sales (excl. tax)", Cell.num 0), ("Sum of Passed on Tax", Cell.num 0),
   ("Sum of Marketplace Facilitator Tax", Cell.num 0),
   ("Additional Fees", Cell.num af), ("ad_fee", Cell.num 0),
   ("Sum of Marketplace fee", Cell.num 0)]

/-- The spec's two-row example: owner A, week W1, restaurant R1, platform
DoorDash; orders 2 and 3, payouts 20.0 and 30.0, nets 18.0 and 27.0,
additional fee 5.0 on both rows. -/
def c1Df : DataFrame :=
  ⟨aggCols,
   [aggRow "A" "W1" "R1" "DoorDash" 2 20 18 5,
    aggRow "A" "W1" "R1" "DoorDash" 3 30 27 5]⟩

/-- A frame whose first-encountered owner order is B then A. -/
def c6Df : DataFrame :=
  ⟨aggCols,
   [aggRow "B" "W1" "R" "DoorDash" 1 10 9 1,
    aggRow "A" "W1" "R" "DoorDash" 2 20 18 2]⟩

end InvoiceGen

namespace InvoiceGen

/-! ## Theorems for the normalizer claims -/

/-- C4 counterexample: `clean_currency` applied to the malformed string
`'abc'` does not return a float — `float('abc')` raises `ValueError`
(modelled by `none`), so the normalizer is not exception-free on strings. -/
theorem C4_clean_currency_abc_raises :
    clean_currency (Cell.str "abc") = none := by
  decide

/-- C4 (amended): `clean_currency` returns a floating-point value for every
null/NaN marker and every numeric cell; a string cell returns exactly when
its `'$'`/`','`-stripped remainder is empty (then the result is `0.0`) or
parses as a Python float literal — on any other string, such as `'abc'`,
`float(...)` raises `ValueError` rather than returning, so detection of
non-numeric content is not handled inside the normalizer. -/
theorem C4_clean_currency_partial_safety :
    (∀ q : ℚ, clean_currency (Cell.num q) = some q) ∧
    clean_currency Cell.nan = some 0 ∧
    (∀ s : String,
      (clean_currency (Cell.str s)).isSome ↔
        s.data.filter (fun c => ¬ (c = '$' ∨ c = ',')) = [] ∨
          (pyFloatString ⟨s.data.filter (fun c => ¬ (c = '$' ∨ c = ','))⟩).isSome) ∧
    (∀ s : String, s.data.filter (fun c => ¬ (c = '$' ∨ c = ',')) = [] →
      clean_currency (Cell.str s) = some 0) ∧
    clean_currency (Cell.str "abc") = none := by
  refine ⟨fun q => rfl, rfl, ?_, ?_, by decide⟩
  · intro s
    show (if s.data.filter (fun c => ¬ (c = '$' ∨ c = ',')) = [] then some (0 : ℚ)
        else pyFloatString ⟨s.data.filter (fun c => ¬ (c = '$' ∨ c = ','))⟩).isSome ↔ _
    by_cases h : s.data.filter (fun c => ¬ (c = '$' ∨ c = ',')) = []
    · rw [if_pos h]
      exact iff_of_true rfl (Or.inl h)
    · rw [if_neg h]
      constructor
      · exact fun hs => Or.inr hs
      · intro hor
        rcases hor with hcontra | hs
        · exact absurd hcontra h
        · exact hs
  · intro s h
    show (if s.data.filter (fun c => ¬ (c = '$' ∨ c = ',')) = [] then some (0 : ℚ)
        else pyFloatString ⟨s.data.filter (fun c => ¬ (c = '$' ∨ c = ','))⟩) = some 0
    rw [if_pos h]

/-- C4 witness: the empty-after-strip clause applied at the non-empty
string `'$,'`, whose stripped remainder is empty, and the
characterization applied at `'1.5'`. -/
theorem C4_clean_currency_partial_safety_witness :
    clean_currency (Cell.str "$,") = some 0 ∧
    ((clean_currency (Cell.str "1.5")).isSome ↔
      ("1.5" : String).data.filter (fun c => ¬ (c = '$' ∨ c = ',')) = [] ∨
        (pyFloatString ⟨("1.5" : String).data.filter (fun c => ¬ (c = '$' ∨ c = ','))⟩).isSome) :=
  ⟨C4_clean_currency_partial_safety.2.2.2.1 "$," (by decide),
   C4_clean_currency_partial_safety.2.2.1 "1.5"⟩

/-- C5: `clean_currency('$1,234.50') = 1234.50`, `clean_currency('') = 0.0`,
`clean_currency(None) = 0.0`, and `clean_currency` is idempotent on its own
outputs: any value it can return is a number, on which it acts as the
identity. -/
theorem C5_clean_currency_idempotent :
    clean_currency (Cell.str "$1,234.50") = some 1234.50 ∧
    clean_currency (Cell.str "") = some 0 ∧
    clean_currency Cell.nan = some 0 ∧
    ∀ x q, clean_currency x = some q → clean_currency (Cell.num q) = some q := by
  refine ⟨?_, by decide, rfl, fun x q _ => rfl⟩
  show pyFloatString "1234.50" = some 1234.50
  simp [pyFloatString, parseSign, parseMantissa, parseExpPart, isSpaceChar, isDigitChar,
    digitsToNat, Id.run, List.takeWhile, List.dropWhile, List.foldl]
  norm_num

/-- C5 witness: the idempotence clause applied at the concrete input
`'$1,234.50'`. -/
theorem C5_clean_currency_idempotent_witness :
    clean_currency (Cell.num ((clean_currency (Cell.str "$1,234.50")).getD 0)) =
      some ((clean_currency (Cell.str "$1,234.50")).getD 0) := by
  exact C5_clean_currency_idempotent.2.2.2 (Cell.num ((clean_currency (Cell.str "$1,234.50")).getD 0)) _ rfl

/-! ## Theorems for the validator claims -/

/-- C2 counterexample: for a table missing one required column,
`validate_dataframe` returns `passed = False` together with an *empty*
issue list — not a list containing exactly one `missing_columns` issue.
(The single `missing_columns` error is recorded in the validator's
`errors` attribute, but the method returns `self.warnings`.) -/
theorem C2_returned_list_empty_counterexample :
    (validate_dataframe c2Df).passed = false ∧
    (validate_dataframe c2Df).returned = [] := by
  decide

/-- C2 (amended): for every table missing at least one required column,
`validate_dataframe` records exactly one issue, of kind `missing_columns`
and carrying no row index, in its `errors` state, performs no row-level or
cross-row validation (its `warnings` state stays empty), and returns
`passed = False` paired with the warnings list — which is empty, so the
returned issue list is `[]`, not `[missing_columns]`. -/
theorem C2_missing_columns_short_circuit (df : DataFrame)
    (h : missing_columns_of df ≠ []) :
    (validate_dataframe df).passed = false ∧
    (validate_dataframe df).errors = [⟨"missing_columns", none, none, "error"⟩] ∧
    (validate_dataframe df).returned = (validate_dataframe df).warnings ∧
    (validate_dataframe df).warnings = [] := by
  simp [validate_dataframe, h]

/-- C2 witness: the amended theorem applied at the concrete frame `c2Df`. -/
theorem C2_missing_columns_short_circuit_witness :
    (validate_dataframe c2Df).passed = false ∧
    (validate_dataframe c2Df).errors = [⟨"missing_columns", none, none, "error"⟩] ∧
    (validate_dataframe c2Df).returned = (validate_dataframe c2Df).warnings ∧
    (validate_dataframe c2Df).warnings = [] :=
  C2_missing_columns_short_circuit c2Df (by decide)

/-- `'Sum of Order Count'` is not among the fields `_validate_numeric_fields`
iterates: its configured type is the tuple `(int, float)`, and
`(int, float) in (int, float)` is false. -/
theorem sum_of_order_count_not_numeric_field :
    "Sum of Order Count" ∉ numericFieldsList := by
  decide

/-- No issue produced for a single numeric field of kind `negative_orders`
unless the field is `'Sum of Order Count'`. -/
theorem numericFieldIssues_no_negative_orders (i : ℕ) (f : String) (v : Cell)
    (hf : f ≠ "Sum of Order Count") :
    ∀ e ∈ (numericFieldIssues i f v).1, e.error_type ≠ "negative_orders" := by
  intro e he
  unfold numericFieldIssues at he
  cases hfc : pyFloatCell v with
  | none =>
      rw [hfc] at he
      simp only [List.mem_append] at he
      rcases he with he | he
      · split at he <;> simp_all [VIssue.mk.injEq]
      · split at he <;> simp_all [VIssue.mk.injEq]
  | some fv =>
      rw [hfc] at he
      simp only [List.mem_append] at he
      rcases he with he | he
      · split at he <;> simp_all [VIssue.mk.injEq]
      · rw [if_neg (fun hand => hf hand.1)] at he
        simp at he

/-- Any error recorded by a row validation has a kind other than
`negative_orders`. -/
theorem rowIssues_no_negative_orders (i : ℕ) (r : Row) :
    ∀ e ∈ (rowIssues i r).1, e.error_type ≠ "negative_orders" := by
  intro e he
  unfold rowIssues at he
  simp only [List.mem_append] at he
  rcases he with he | he
  · split at he <;> simp_all [VIssue.mk.injEq]
  · simp only [List.mem_flatMap, List.mem_map] at he
    obtain ⟨p, ⟨f, hf, hp⟩, hep⟩ := he
    subst hp
    refine numericFieldIssues_no_negative_orders i f (getCell r f) ?_ e hep
    intro hcontra
    subst hcontra
    exact sum_of_order_count_not_numeric_field hf

/-- C3: the negative-order-count check is dead code. At the concrete frame
`c3Df` — all required columns present, one row with order count `-5` —
validation passes with an empty error list instead of recording a
`negative_orders` error; and in general no `validate_dataframe` run ever
records a `negative_orders` issue, because `'Sum of Order Count'` is
configured with the type tuple `(int, float)`, which fails the membership
test `in (int, float)` that selects the numeric fields. -/
theorem C3_negative_orders_dead_code :
    (validate_dataframe c3Df).passed = true ∧
    (validate_dataframe c3Df).errors = [] ∧
    ∀ df e, e ∈ (validate_dataframe df).errors → e.error_type ≠ "negative_orders" := by
  refine ⟨?_, ?_, ?_⟩
  · have hmiss : missing_columns_of c3Df = [] := by decide
    have hrows : c3Df.rows.enum.map (fun p => rowIssues p.1 p.2) = [([], [])] := by decide
    simp [validate_dataframe, hmiss, hrows]
  · have hmiss : missing_columns_of c3Df = [] := by decide
    have hrows : c3Df.rows.enum.map (fun p => rowIssues p.1 p.2) = [([], [])] := by decide
    simp [validate_dataframe, hmiss, hrows]
  · intro df e he
    unfold validate_dataframe at he
    split at he
    · simp at he
      subst he
      decide
    · simp only [List.mem_flatMap, List.mem_map] at he
      obtain ⟨p, ⟨q, _, hq⟩, hep⟩ := he
      subst hq
      exact rowIssues_no_negative_orders q.1 q.2 e hep

/-- C3 witness: the universal clause applied at the concrete frame `c2Df`
(whose single recorded error is the `missing_columns` one). -/
theorem C3_negative_orders_dead_code_witness :
    (⟨"missing_columns", none, none, "error"⟩ : VIssue).error_type ≠ "negative_orders" :=
  C3_negative_orders_dead_code.2.2 c2Df ⟨"missing_columns", none, none, "error"⟩ (by decide)

/-! ## Theorems for the reconciliation claims -/

/-- C7 counterexample: for an invoice table with no rows (empty cleaned
name set) and a normal master table, `compare_stores` does not return the
described `ValidationResult` at all — it raises `ZeroDivisionError`
computing `match_percentage`, so the claim's universal quantification over
every pair of input tables fails. -/
theorem C7_empty_invoice_counterexample :
    compare_stores c7EmptyInvoiceDf c7MasterDf = Except.error CmpErr.zeroDivision := by
  decide

/-- C7 (amended): for every pair of tables whose name columns are present
and whose cleaned invoice name set A is nonempty, `compare_stores` returns
`matched = A ∩ B`, `missing_in_master = A − B`, `missing_in_invoice = B − A`
(B the cleaned master name set); in particular for invoice keys {1,2,3}
versus master keys {2,3,4} it returns `matched = {2,3}`,
`missing_in_master = {1}`, `missing_in_invoice = {4}`. -/
theorem C7_compare_stores_set_semantics :
    (∀ inv m : DataFrame, "Restaurant" ∈ inv.cols → "RestaurantName" ∈ m.cols →
        cleanedNames inv "Restaurant" ≠ ∅ →
        ∃ r, compare_stores inv m = Except.ok r ∧
          r.matched = cleanedNames inv "Restaurant" ∩ cleanedNames m "RestaurantName" ∧
          r.missing_in_master = cleanedNames inv "Restaurant" \ cleanedNames m "RestaurantName" ∧
          r.missing_in_invoice = cleanedNames m "RestaurantName" \ cleanedNames inv "Restaurant") ∧
    (compare_stores c7InvoiceDf c7MasterDf).toOption.map StoreCmpResult.matched =
      some {some "2", some "3"} ∧
    (compare_stores c7InvoiceDf c7MasterDf).toOption.map StoreCmpResult.missing_in_master =
      some {some "1"} ∧
    (compare_stores c7InvoiceDf c7MasterDf).toOption.map StoreCmpResult.missing_in_invoice =
      some {some "4"} := by
  refine ⟨?_, by decide, by decide, by decide⟩
  intro inv m h1 h2 h
  unfold compare_stores
  rw [if_neg (not_not_intro h1), if_neg (not_not_intro h2),
    if_neg (by simpa [Finset.card_eq_zero] using h)]
  exact ⟨_, rfl, rfl, rfl, rfl⟩

/-- C7 witness: the universal clause applied at the {1,2,3}/{2,3,4} pair. -/
theorem C7_compare_stores_set_semantics_witness :
    ∃ r, compare_stores c7InvoiceDf c7MasterDf = Except.ok r ∧
      r.matched = cleanedNames c7InvoiceDf "Restaurant" ∩ cleanedNames c7MasterDf "RestaurantName" ∧
      r.missing_in_master =
        cleanedNames c7InvoiceDf "Restaurant" \ cleanedNames c7MasterDf "RestaurantName" ∧
      r.missing_in_invoice =
        cleanedNames c7MasterDf "RestaurantName" \ cleanedNames c7InvoiceDf "Restaurant" :=
  C7_compare_stores_set_semantics.1 c7InvoiceDf c7MasterDf (by decide) (by decide) (by decide)

/-- C9: whenever the cleaned `Restaurant` name set of the invoice table is
empty (e.g. a zero-row table), `compare_stores` raises `ZeroDivisionError`
while computing `match_percentage` instead of returning a
`ValidationResult`. -/
theorem C9_empty_invoice_zero_division (inv m : DataFrame)
    (h1 : "Restaurant" ∈ inv.cols) (h2 : "RestaurantName" ∈ m.cols)
    (h : cleanedNames inv "Restaurant" = ∅) :
    compare_stores inv m = Except.error CmpErr.zeroDivision := by
  unfold compare_stores
  rw [if_neg (not_not_intro h1), if_neg (not_not_intro h2),
    if_pos (by simp [h])]

/-- C9 witness: the theorem applied at a concrete zero-row invoice frame. -/
theorem C9_empty_invoice_zero_division_witness :
    compare_stores c9EmptyInvoiceDf c9MasterDf = Except.error CmpErr.zeroDivision :=
  C9_empty_invoice_zero_division c9EmptyInvoiceDf c9MasterDf (by decide) (by decide) (by decide)

/-! ## Theorems for the batch-generation claim -/

/-- Concatenating the per-batch successful results over the fixed-size
batches is the same as filtering the successful results of the whole entry
list, in submission order. -/
theorem chunkBatches_filterMap_flatten {α β : Type} (f : α → Option β) (n : ℕ) :
    ∀ (m : ℕ) (l : List α), l.length ≤ m →
      ((chunkBatches n l).map (fun b => b.filterMap f)).flatten = l.filterMap f := by
  intro m
  induction m with
  | zero =>
      intro l hl
      have : l = [] := List.length_eq_zero.mp (Nat.le_zero.mp hl)
      subst this
      simp [chunkBatches]
  | succ m ih =>
      intro l hl
      cases l with
      | nil => simp [chunkBatches]
      | cons x xs =>
          rw [chunkBatches]
          simp only [List.map_cons, List.flatten_cons]
          rw [ih (xs.drop (n - 1)) (by
            rw [List.length_drop]
            exact Nat.le_trans (Nat.sub_le _ _) (Nat.le_of_succ_le_succ hl))]
          rw [← List.filterMap_append]
          rw [List.cons_append, List.take_append_drop]

/-- The batch result is exactly the successes of the whole entry list. -/
theorem generate_pdfs_batch_eq_filterMap {α β : Type} (render : α → Option β)
    (n : ℕ) (entries : List α) :
    generate_pdfs_batch render n entries = entries.filterMap render :=
  chunkBatches_filterMap_flatten render n entries.length entries (Nat.le_refl _)

/-- Successes of a list are counted by `countP`. -/
theorem length_filterMap_eq_countP {α β : Type} (f : α → Option β) :
    ∀ l : List α, (l.filterMap f).length = l.countP (fun a => (f a).isSome) := by
  intro l
  induction l with
  | nil => simp
  | cons a t ih => cases h : f a <;> simp [List.filterMap_cons, h, List.countP_cons, ih]

/-- C8: one entry's render failure never aborts the batch — the batch
result (size-5 sub-batches, as in `main.py`) is the list of successful
paths in submission order with failed entries excluded; for 5 entries of
which exactly 4 render successfully, 4 paths are returned; and
`generate_pdfs` raises (`Except.error`) when the final result list is
empty after processing all entries, returning the paths otherwise. -/
theorem C8_batch_partial_failure :
    (∀ (α β : Type) (render : α → Option β) (entries : List α),
        generate_pdfs_batch render 5 entries = entries.filterMap render) ∧
    (∀ (α β : Type) (render : α → Option β) (entries : List α),
        entries.length = 5 →
        entries.countP (fun e => (render e).isSome) = 4 →
        (generate_pdfs_batch render 5 entries).length = 4) ∧
    (∀ (α β : Type) (render : α → Option β) (entries : List α),
        entries.filterMap render = [] →
        generate_pdfs render entries = Except.error "No PDFs were generated successfully") ∧
    (∀ (α β : Type) (render : α → Option β) (entries : List α),
        entries.filterMap render ≠ [] →
        generate_pdfs render entries = Except.ok (entries.filterMap render)) := by
  refine ⟨?_, ?_, ?_, ?_⟩
  · intro α β render entries
    exact generate_pdfs_batch_eq_filterMap render 5 entries
  · intro α β render entries _ hcount
    rw [generate_pdfs_batch_eq_filterMap, length_filterMap_eq_countP, hcount]
  · intro α β render entries hempty
    unfold generate_pdfs
    rw [generate_pdfs_batch_eq_filterMap, hempty]
    rfl
  · intro α β render entries hne
    unfold generate_pdfs
    rw [generate_pdfs_batch_eq_filterMap]
    rw [if_neg (by simpa [List.isEmpty_iff] using hne)]

/-- C8 witness: five entries of which the third fails — the batch yields
the four successful paths and `generate_pdfs` succeeds; five entries that
all fail — `generate_pdfs` errors. -/
theorem C8_batch_partial_failure_witness :
    (generate_pdfs_batch
        (fun s : String => if s = "c" then none else some (s ++ ".pdf")) 5
        ["a", "b", "c", "d", "e"]).length = 4 ∧
    generate_pdfs (fun s : String => if s = "c" then none else some (s ++ ".pdf"))
        ["a", "b", "c", "d", "e"] =
      Except.ok ["a.pdf", "b.pdf", "d.pdf", "e.pdf"] ∧
    generate_pdfs (fun _ : String => (none : Option String)) ["a", "b", "c", "d", "e"] =
      Except.error "No PDFs were generated successfully" := by
  refine ⟨?_, ?_, ?_⟩
  · exact C8_batch_partial_failure.2.1 String String _ _ (by decide) (by decide)
  · have h := C8_batch_partial_failure.2.2.2 String String
      (fun s : String => if s = "c" then none else some (s ++ ".pdf"))
      ["a", "b", "c", "d", "e"] (by decide)
    rw [h]
    decide
  · exact C8_batch_partial_failure.2.2.1 String String _ _ (by decide)

/-! ## Helper lemmas: `optMapList` and row updates -/

theorem optMapList_eq_map {α β : Type} (f : α → Option β) (g : α → β) :
    ∀ l : List α, (∀ a ∈ l, f a = some (g a)) → optMapList f l = some (l.map g) := by
  intro l
  induction l with
  | nil => intro _; rfl
  | cons a t ih =>
      intro h
      have ha := h a (List.mem_cons_self a t)
      have ht := ih (fun x hx => h x (List.mem_cons_of_mem a hx))
      simp [optMapList, ha, ht]

theorem optMapList_mem {α β : Type} (f : α → Option β) :
    ∀ (l : List α) (l' : List β), optMapList f l = some l' →
      ∀ b ∈ l', ∃ a ∈ l, f a = some b := by
  intro l
  induction l with
  | nil =>
      intro l' h b hb
      simp only [optMapList] at h
      cases h
      simp at hb
  | cons a t ih =>
      intro l' h b hb
      unfold optMapList at h
      cases hfa : f a with
      | none => rw [hfa] at h; cases h
      | some b0 =>
          rw [hfa] at h
          cases hrest : optMapList f t with
          | none => rw [hrest] at h; cases h
          | some bs =>
              rw [hrest] at h
              cases h
              rcases List.mem_cons.mp hb with hb | hb
              · exact ⟨a, List.mem_cons_self a t, by rw [hfa, hb]⟩
              · obtain ⟨x, hx, hfx⟩ := ih bs hrest b hb
                exact ⟨x, List.mem_cons_of_mem a hx, hfx⟩

theorem find?_rowSetCell (r : Row) (c : String) (v : Cell) :
    (rowSetCell r c v).find? (fun p => p.1 = c) =
      (r.find? (fun p => p.1 = c)).map (fun p => (p.1, v)) := by
  induction r with
  | nil => rfl
  | cons p t ih =>
      by_cases hp : p.1 = c
      · simp [rowSetCell, hp, List.find?_cons_of_pos]
      · simp only [rowSetCell, List.map_cons, if_neg hp] at *
        rw [List.find?_cons_of_neg _ (by simpa using hp),
          List.find?_cons_of_neg _ (by simpa using hp)]
        exact ih

theorem find?_rowSetCell_ne (r : Row) (c c' : String) (v : Cell) (h : c' ≠ c) :
    (rowSetCell r c v).find? (fun p => p.1 = c') = r.find? (fun p => p.1 = c') := by
  induction r with
  | nil => rfl
  | cons p t ih =>
      by_cases hp : p.1 = c'
      · have hpc : ¬ p.1 = c := by rw [hp]; exact h
        simp only [rowSetCell, List.map_cons, if_neg hpc]
        rw [List.find?_cons_of_pos _ (by simpa using hp),
          List.find?_cons_of_pos _ (by simpa using hp)]
      · by_cases hpc : p.1 = c
        · simp only [rowSetCell, List.map_cons, if_pos hpc]
          rw [List.find?_cons_of_neg _ (by simpa using hp),
            List.find?_cons_of_neg _ (by simpa using hp)]
          exact ih
        · simp only [rowSetCell, List.map_cons, if_neg hpc]
          rw [List.find?_cons_of_neg _ (by simpa using hp),
            List.find?_cons_of_neg _ (by simpa using hp)]
          exact ih

theorem getCell_rowSetCell_self (r : Row) (c : String) (v : Cell)
    (h : (r.find? (fun p => p.1 = c)).isSome) :
    getCell (rowSetCell r c v) c = v := by
  obtain ⟨p, hp⟩ := Option.isSome_iff_exists.mp h
  unfold getCell
  rw [find?_rowSetCell, hp]
  rfl

theorem getCell_rowSetCell_ne (r : Row) (c c' : String) (v : Cell) (h : c' ≠ c) :
    getCell (rowSetCell r c v) c' = getCell r c' := by
  unfold getCell
  rw [find?_rowSetCell_ne r c c' v h]

/-- Membership-aware left-map elimination for `Forall₂`. -/
theorem forall₂_map_left_strong {α β : Type} {R : α → β → Prop} {S : α → β → Prop}
    (f : α → α) :
    ∀ (l : List α) (l' : List β), List.Forall₂ R (l.map f) l' →
      (∀ a ∈ l, ∀ b, R (f a) b → S a b) → List.Forall₂ S l l' := by
  intro l
  induction l with
  | nil =>
      intro l' h _
      rw [List.map_nil, List.forall₂_nil_left_iff] at h
      subst h
      exact List.Forall₂.nil
  | cons a t ih =>
      intro l' h himp
      rw [List.map_cons] at h
      cases h with
      | cons hab htail =>
          exact List.Forall₂.cons
            (himp a (List.mem_cons_self a t) _ hab)
            (ih _ htail (fun x hx => himp x (List.mem_cons_of_mem a hx)))

/-! ## Helper lemmas: the Python string and tuple orders -/

theorem charEq_of_toNat_eq {a b : Char} (h : a.toNat = b.toNat) : a = b := by
  have := congrArg Char.ofNat h
  rwa [Char.ofNat_toNat, Char.ofNat_toNat] at this

theorem strEq_of_data_eq {a b : String} (h : a.data = b.data) : a = b := by
  cases a
  cases b
  exact congrArg String.mk h

theorem strLtL_asymm : ∀ x y : List Char, strLtL x y = true → strLtL y x = false := by
  intro x
  induction x with
  | nil =>
      intro y h
      cases y with
      | nil => cases h
      | cons b t => rfl
  | cons a s ih =>
      intro y h
      cases y with
      | nil => cases h
      | cons b t =>
          simp only [strLtL] at h ⊢
          by_cases h1 : a.toNat < b.toNat
          · rw [if_neg (by omega), if_pos h1]
          · by_cases h2 : b.toNat < a.toNat
            · rw [if_neg h1, if_pos h2] at h
              cases h
            · rw [if_neg h1, if_neg h2] at h
              rw [if_neg h2, if_neg h1]
              exact ih t h

theorem strLtL_trans : ∀ x y z : List Char,
    strLtL x y = true → strLtL y z = true → strLtL x z = true := by
  intro x
  induction x with
  | nil =>
      intro y z hxy hyz
      cases y with
      | nil => cases hxy
      | cons b t =>
          cases z with
          | nil => cases hyz
          | cons c u => rfl
  | cons a s ih =>
      intro y z hxy hyz
      cases y with
      | nil => cases hxy
      | cons b t =>
          cases z with
          | nil => cases hyz
          | cons c u =>
              simp only [strLtL] at hxy hyz ⊢
              by_cases h1 : a.toNat < b.toNat <;> by_cases h2 : b.toNat < c.toNat
              · rw [if_pos (by omega)]
              · by_cases h3 : c.toNat < b.toNat
                · rw [if_neg h2, if_pos h3] at hyz
                  cases hyz
                · rw [if_pos (by omega)]
              · by_cases h4 : b.toNat < a.toNat
                · rw [if_neg h1, if_pos h4] at hxy
                  cases hxy
                · rw [if_pos (by omega)]
              · by_cases h4 : b.toNat < a.toNat
                · rw [if_neg h1, if_pos h4] at hxy
                  cases hxy
                · by_cases h3 : c.toNat < b.toNat
                  · rw [if_neg h2, if_pos h3] at hyz
                    cases hyz
                  · rw [if_neg h1, if_neg h4] at hxy
                    rw [if_neg h2, if_neg h3] at hyz
                    rw [if_neg (by omega), if_neg (by omega)]
                    exact ih t u hxy hyz

theorem strLtL_eq_of_both_false : ∀ x y : List Char,
    strLtL x y = false → strLtL y x = false → x = y := by
  intro x
  induction x with
  | nil =>
      intro y hxy _
      cases y with
      | nil => rfl
      | cons b t => cases hxy
  | cons a s ih =>
      intro y hxy hyx
      cases y with
      | nil => cases hyx
      | cons b t =>
          simp only [strLtL] at hxy hyx
          by_cases h1 : a.toNat < b.toNat
          · rw [if_pos h1] at hxy
            cases hxy
          · by_cases h2 : b.toNat < a.toNat
            · rw [if_pos h2] at hyx
              cases hyx
            · rw [if_neg h1, if_neg h2] at hxy hyx
              have hab : a = b := charEq_of_toNat_eq (by omega)
              rw [hab, ih t hxy hyx]

theorem pyStrLe_total (a b : String) : pyStrLe a b ∨ pyStrLe b a := by
  unfold pyStrLe
  cases h : strLtL b.data a.data
  · exact Or.inl rfl
  · exact Or.inr (strLtL_asymm _ _ h)

theorem pyStrLe_trans {a b c : String} (hab : pyStrLe a b) (hbc : pyStrLe b c) :
    pyStrLe a c := by
  unfold pyStrLe at *
  cases hca : strLtL c.data a.data
  · rfl
  · cases hba : strLtL a.data b.data
    · have : a.data = b.data := strLtL_eq_of_both_false _ _ hba hab
      rw [this] at hca
      rw [hca] at hbc
      cases hbc
    · have := strLtL_trans _ _ _ hca hba
      rw [this] at hbc
      cases hbc

theorem tupLe_total (a b : String × String) : tupLe a b ∨ tupLe b a := by
  unfold tupLe
  cases h1 : strLtL a.1.data b.1.data
  · cases h2 : strLtL b.1.data a.1.data
    · have heq : a.1 = b.1 := strEq_of_data_eq (strLtL_eq_of_both_false _ _ h1 h2)
      rcases pyStrLe_total a.2 b.2 with h | h
      · exact Or.inl (Or.inr ⟨heq, h⟩)
      · exact Or.inr (Or.inr ⟨heq.symm, h⟩)
    · exact Or.inr (Or.inl rfl)
  · exact Or.inl (Or.inl rfl)

theorem tupLe_trans {a b c : String × String} (hab : tupLe a b) (hbc : tupLe b c) :
    tupLe a c := by
  unfold tupLe at *
  rcases hab with hab | ⟨hab1, hab2⟩
  · rcases hbc with hbc | ⟨hbc1, hbc2⟩
    · exact Or.inl (strLtL_trans _ _ _ hab hbc)
    · exact Or.inl (hbc1 ▸ hab)
  · rcases hbc with hbc | ⟨hbc1, hbc2⟩
    · exact Or.inl (hab1 ▸ hbc)
    · exact Or.inr ⟨hab1.trans hbc1, pyStrLe_trans hab2 hbc2⟩

/-! ## Helper lemmas: `firstSeen` and `groupby` -/

theorem mem_firstSeen {α : Type} [DecidableEq α] :
    ∀ (l : List α) (x : α), x ∈ firstSeen l ↔ x ∈ l := by
  intro l
  induction l with
  | nil => intro x; exact Iff.rfl
  | cons a t ih =>
      intro x
      by_cases hx : x = a
      · subst hx
        simp [firstSeen]
      · simp [firstSeen, List.mem_filter, ih, hx]

theorem nodup_firstSeen {α : Type} [DecidableEq α] :
    ∀ l : List α, (firstSeen l).Nodup := by
  intro l
  induction l with
  | nil => exact List.nodup_nil
  | cons a t ih =>
      rw [firstSeen]
      refine List.nodup_cons.mpr ⟨?_, ih.filter _⟩
      intro hmem
      rw [List.mem_filter] at hmem
      simpa using hmem.2

theorem groupby_mem_snd {κ : Type} [DecidableEq κ] (key : Row → Option κ)
    (le : κ → κ → Prop) [DecidableRel le] (rows : List Row) :
    ∀ kg ∈ groupby key le rows, kg.2 = rows.filter (fun r => key r = some kg.1) := by
  intro kg hkg
  obtain ⟨k, _, rfl⟩ := List.mem_map.mp hkg
  rfl

theorem groupby_map_fst {κ : Type} [DecidableEq κ] (key : Row → Option κ)
    (le : κ → κ → Prop) [DecidableRel le] (rows : List Row) :
    (groupby key le rows).map Prod.fst =
      List.insertionSort le (firstSeen (rows.filterMap key)) := by
  unfold groupby
  rw [List.map_map]
  exact List.map_id _

theorem groupby_keys_mem {κ : Type} [DecidableEq κ] (key : Row → Option κ)
    (le : κ → κ → Prop) [DecidableRel le] (rows : List Row) (k : κ) :
    k ∈ (groupby key le rows).map Prod.fst ↔ ∃ r ∈ rows, key r = some k := by
  rw [groupby_map_fst, (List.perm_insertionSort le _).mem_iff, mem_firstSeen,
    List.mem_filterMap]

theorem groupby_keys_nodup {κ : Type} [DecidableEq κ] (key : Row → Option κ)
    (le : κ → κ → Prop) [DecidableRel le] (rows : List Row) :
    ((groupby key le rows).map Prod.fst).Nodup := by
  rw [groupby_map_fst]
  exact (List.perm_insertionSort le _).symm.nodup (nodup_firstSeen _)

theorem groupby_keys_sorted {κ : Type} [DecidableEq κ] (key : Row → Option κ)
    (le : κ → κ → Prop) [DecidableRel le]
    (htotal : ∀ a b, le a b ∨ le b a) (htrans : ∀ a b c, le a b → le b c → le a c)
    (rows : List Row) :
    ((groupby key le rows).map Prod.fst).Sorted le := by
  rw [groupby_map_fst]
  exact @List.sorted_insertionSort _ le _ ⟨htotal⟩ ⟨htrans⟩ _

theorem groupby_keys_perm_firstSeen {κ : Type} [DecidableEq κ] (key : Row → Option κ)
    (le : κ → κ → Prop) [DecidableRel le] (rows : List Row) :
    ((groupby key le rows).map Prod.fst).Perm (firstSeen (rows.filterMap key)) := by
  rw [groupby_map_fst]
  exact List.perm_insertionSort le _

/-! ## The cleaning pass of the constructor (C10) -/

/-- The per-row effect of cleaning one column. -/
def cleanSetRow (c : String) (r : Row) : Row :=
  rowSetCell r c (Cell.num ((clean_currency (getCell r c)).getD 0))

theorem cleanColumnInDf_spec (df : DataFrame) (c : String) (hin : c ∈ df.cols)
    (hok : ∀ r ∈ df.rows, (clean_currency (getCell r c)).isSome) :
    cleanColumnInDf df c = some ⟨df.cols, df.rows.map (cleanSetRow c)⟩ := by
  unfold cleanColumnInDf
  rw [if_pos hin,
    optMapList_eq_map _ (cleanSetRow c) _ (by
      intro r hr
      obtain ⟨q, hq⟩ := Option.isSome_iff_exists.mp (hok r hr)
      simp [hq, cleanSetRow, hq])]
  rfl

theorem cleanColsLoop_spec (L : List String) :
    ∀ df : DataFrame,
      (∀ c ∈ L, c ∈ df.cols → ∀ r ∈ df.rows, (clean_currency (getCell r c)).isSome) →
      (∀ r ∈ df.rows, ∀ c ∈ L, c ∈ df.cols → (r.find? (fun p => p.1 = c)).isSome) →
      ∃ rows', cleanColsLoop L df = some ⟨df.cols, rows'⟩ ∧
        List.Forall₂ (fun r r' => ∀ col : String,
          (col ∈ L → col ∈ df.cols →
            getCell r' col = Cell.num ((clean_currency (getCell r col)).getD 0)) ∧
          (col ∉ L ∨ col ∉ df.cols → getCell r' col = getCell r col)) df.rows rows' := by
  induction L with
  | nil =>
      intro df _ _
      refine ⟨df.rows, rfl, List.forall₂_same.mpr ?_⟩
      intro r _ col
      exact ⟨fun hcol => absurd hcol (List.not_mem_nil col), fun _ => rfl⟩
  | cons c t ih =>
      intro df H W
      by_cases hc : c ∈ df.cols
      · have hok : ∀ r ∈ df.rows, (clean_currency (getCell r c)).isSome :=
          fun r hr => H c (List.mem_cons_self c t) hc r hr
        have hstep := cleanColumnInDf_spec df c hc hok
        set df1 : DataFrame := ⟨df.cols, df.rows.map (cleanSetRow c)⟩ with hdf1
        have H1 : ∀ c' ∈ t, c' ∈ df1.cols → ∀ r1 ∈ df1.rows,
            (clean_currency (getCell r1 c')).isSome := by
          intro c' hc' hc'in r1 hr1
          obtain ⟨r, hr, rfl⟩ := List.mem_map.mp hr1
          by_cases hcc : c' = c
          · subst hcc
            rw [cleanSetRow, getCell_rowSetCell_self r c' _
              (W r hr c' (List.mem_cons_self c' t) hc'in)]
            simp [clean_currency]
          · rw [cleanSetRow, getCell_rowSetCell_ne r c c' _ hcc]
            exact H c' (List.mem_cons_of_mem c hc') hc'in r hr
        have W1 : ∀ r1 ∈ df1.rows, ∀ c' ∈ t, c' ∈ df1.cols →
            (r1.find? (fun p => p.1 = c')).isSome := by
          intro r1 hr1 c' hc' hc'in
          obtain ⟨r, hr, rfl⟩ := List.mem_map.mp hr1
          by_cases hcc : c' = c
          · subst hcc
            rw [cleanSetRow, find?_rowSetCell]
            have := W r hr c' (List.mem_cons_self c' t) hc'in
            obtain ⟨p, hp⟩ := Option.isSome_iff_exists.mp this
            rw [hp]
            rfl
          · rw [cleanSetRow, find?_rowSetCell_ne r c c' _ hcc]
            exact W r hr c' (List.mem_cons_of_mem c hc') hc'in
        obtain ⟨rows2, hloop, hrel⟩ := ih df1 H1 W1
        refine ⟨rows2, ?_, ?_⟩
        · unfold cleanColsLoop
          rw [hstep]
          exact hloop
        · refine forall₂_map_left_strong (cleanSetRow c) df.rows rows2 hrel ?_
          intro r hr r2 hrel2
          have hwfr := W r hr c (List.mem_cons_self c t) hc
          have hself : getCell (cleanSetRow c r) c =
              Cell.num ((clean_currency (getCell r c)).getD 0) :=
            getCell_rowSetCell_self r c _ hwfr
          intro col
          constructor
          · intro hcol hcolin
            by_cases hcc : col = c
            · subst hcc
              by_cases hct : col ∈ t
              · have := (hrel2 col).1 hct hcolin
                rw [hself] at this
                rw [this]
                simp [clean_currency]
              · have := (hrel2 col).2 (Or.inl hct)
                rw [hself] at this
                rw [this]
            · have hcolt : col ∈ t := by
                rcases List.mem_cons.mp hcol with h | h
                · exact absurd h hcc
                · exact h
              have := (hrel2 col).1 hcolt hcolin
              unfold cleanSetRow at this
              rw [getCell_rowSetCell_ne r c col _ hcc] at this
              exact this
          · intro hout
            rcases hout with hout | hout
            · have hcc : col ≠ c := fun hcontra => hout (hcontra ▸ List.mem_cons_self c t)
              have hct : col ∉ t := fun hcontra => hout (List.mem_cons_of_mem c hcontra)
              have := (hrel2 col).2 (Or.inl hct)
              unfold cleanSetRow at this
              rw [getCell_rowSetCell_ne r c col _ hcc] at this
              exact this
            · have hcc : col ≠ c := fun hcontra => hout (hcontra ▸ hc)
              have := (hrel2 col).2 (Or.inr hout)
              unfold cleanSetRow at this
              rw [getCell_rowSetCell_ne r c col _ hcc] at this
              exact this
      · have hstep : cleanColumnInDf df c = some df := by
          unfold cleanColumnInDf
          rw [if_neg hc]
        obtain ⟨rows2, hloop, hrel⟩ := ih df
          (fun c' hc' => H c' (List.mem_cons_of_mem c hc'))
          (fun r hr c' hc' => W r hr c' (List.mem_cons_of_mem c hc'))
        refine ⟨rows2, ?_, ?_⟩
        · unfold cleanColsLoop
          rw [hstep]
          exact hloop
        · refine hrel.imp ?_
          intro r r2 hrel2
          intro col
          constructor
          · intro hcol hcolin
            rcases List.mem_cons.mp hcol with h | h
            · exact absurd (h ▸ hcolin) hc
            · exact (hrel2 col).1 h hcolin
          · intro hout
            rcases hout with hout | hout
            · exact (hrel2 col).2 (Or.inl (fun hcontra => hout (List.mem_cons_of_mem c hcontra)))
            · exact (hrel2 col).2 (Or.inr hout)

/-- C10: constructing `InvoiceProcessor(df)` rewrites the caller's
DataFrame at construction time, before any validation or processing call:
every cell of every monetary column present among the fifteen listed names
is replaced by its `clean_currency` normalization, and every other column
is left unchanged (the update is in place on the caller's object; the
embedding represents the mutation as the frame the caller's reference sees
afterwards). Hypotheses: the monetary cells normalize without raising, and
rows carry their frame's columns (the pandas invariant). -/
theorem C10_constructor_cleans_monetary_columns (df : DataFrame)
    (hok : ∀ c ∈ monetary_columns, c ∈ df.cols →
      ∀ r ∈ df.rows, (clean_currency (getCell r c)).isSome)
    (hwf : ∀ r ∈ df.rows, ∀ c ∈ monetary_columns, c ∈ df.cols →
      (r.find? (fun p => p.1 = c)).isSome) :
    ∃ rows', clean_monetary_columns df = some ⟨df.cols, rows'⟩ ∧
      List.Forall₂ (fun r r' => ∀ col : String,
        (col ∈ monetary_columns → col ∈ df.cols →
          getCell r' col = Cell.num ((clean_currency (getCell r col)).getD 0)) ∧
        (col ∉ monetary_columns ∨ col ∉ df.cols → getCell r' col = getCell r col))
        df.rows rows' :=
  cleanColsLoop_spec monetary_columns df hok hwf

/-! ## Helper lemmas: the aggregation pipeline -/

theorem platformInfoOf_eq (cols : List String)
    (hmf : "Sum of Marketplace fee" ∈ cols) (p : String) (rows : List Row) :
    platformInfoOf cols p rows = some (platformRecord p rows) := by
  unfold platformInfoOf
  rw [if_pos hmf]

theorem restaurantInfoOf_eq (cols : List String)
    (hmf : "Sum of Marketplace fee" ∈ cols) (rn : String) (rows : List Row) :
    restaurantInfoOf cols rn rows = some (restaurantRecord rn rows) := by
  unfold restaurantInfoOf
  rw [optMapList_eq_map _ (fun g : String × List Row => platformRecord g.1 g.2) _
    (fun g _ => platformInfoOf_eq cols hmf g.1 g.2)]
  rfl

theorem ownerInfoOf_eq (cols : List String)
    (hmf : "Sum of Marketplace fee" ∈ cols) (k : String × String) (rows : List Row) :
    ownerInfoOf cols k rows = some (ownerRecord k rows) := by
  unfold ownerInfoOf
  rw [optMapList_eq_map _ (fun g : String × List Row => restaurantRecord g.1 g.2) _
    (fun g _ => restaurantInfoOf_eq cols hmf g.1 g.2)]
  rfl

theorem process_invoices_eq (df : DataFrame) (hv : validate_data df = some true)
    (hmf : "Sum of Marketplace fee" ∈ (cleanColumnNames df).cols) :
    process_invoices df =
      some ((groupby ownerKeyOf tupLe (cleanColumnNames df).rows).map
        (fun g => ownerRecord g.1 g.2)) := by
  unfold process_invoices
  rw [hv]
  exact optMapList_eq_map _ (fun g : (String × String) × List Row => ownerRecord g.1 g.2) _
    (fun g _ => ownerInfoOf_eq (cleanColumnNames df).cols hmf g.1 g.2)

theorem invoiceProcessorRun_eq (df df1 : DataFrame)
    (hclean : clean_monetary_columns df = some df1)
    (hv : validate_data df1 = some true)
    (hmf : "Sum of Marketplace fee" ∈ (cleanColumnNames df1).cols) :
    invoiceProcessorRun df =
      some ((groupby ownerKeyOf tupLe (cleanColumnNames df1).rows).map
        (fun g => ownerRecord g.1 g.2)) := by
  unfold invoiceProcessorRun
  rw [hclean]
  exact process_invoices_eq df1 hv hmf

theorem run_keys_eq (df1 : DataFrame) :
    ((groupby ownerKeyOf tupLe (cleanColumnNames df1).rows).map
        (fun g => ownerRecord g.1 g.2)).map (fun e => (e.name, e.period)) =
      (groupby ownerKeyOf tupLe (cleanColumnNames df1).rows).map Prod.fst := by
  rw [List.map_map]
  rfl

/-- C10 witness: a one-row frame with a monetary string cell `'$5'` and a
non-monetary column. -/
theorem C10_constructor_cleans_monetary_columns_witness :
    ∃ rows', clean_monetary_columns
        ⟨["Additional Fees", "note"],
         [[("Additional Fees", Cell.str "$5"), ("note", Cell.str "x")]]⟩ =
      some ⟨["Additional Fees", "note"], rows'⟩ ∧
      List.Forall₂ (fun r r' => ∀ col : String,
        (col ∈ monetary_columns → col ∈ (["Additional Fees", "note"] : List String) →
          getCell r' col = Cell.num ((clean_currency (getCell r col)).getD 0)) ∧
        (col ∉ monetary_columns ∨ col ∉ (["Additional Fees", "note"] : List String) →
          getCell r' col = getCell r col))
        [[("Additional Fees", Cell.str "$5"), ("note", Cell.str "x")]] rows' :=
  C10_constructor_cleans_monetary_columns
    ⟨["Additional Fees", "note"],
     [[("Additional Fees", Cell.str "$5"), ("note", Cell.str "x")]]⟩
    (by decide) (by decide)

/-! ## Theorems for the aggregation claims -/

/-- C1: for every table that construction cleans and `validate_data`
accepts (with the `'Sum of Marketplace fee'` column present so the
breakdown lookups succeed), processing groups the rows by
(owner name, period label): there is exactly one output node per distinct
key occurring in the table, its financials are
`total_payout = Σ 'Sum of Total payout'`,
`final_net_payout = Σ 'Final Net Payout with Agg Fee'`,
`ad_fees = Σ 'ad_fee'` and `aggregator_fee = max 'Additional Fees'` over
the key's rows, and within each (restaurant, platform) sub-group `orders`
is the integer sum of the order counts and `gross_pay` the sum of
`'Sum of Total payout'`. On the spec's two-row example the owner-period
node has `total_payout = 50.0`, `aggregator_fee = 5.0` (max, not the sum
`10.0`), and its single platform breakdown has `orders = 5`,
`gross_pay = 50.0`. -/
theorem C1_owner_period_aggregation :
    (∀ df df1 : DataFrame, clean_monetary_columns df = some df1 →
      validate_data df1 = some true →
      "Sum of Marketplace fee" ∈ (cleanColumnNames df1).cols →
      ∃ out, invoiceProcessorRun df = some out ∧
        (out.map (fun e => (e.name, e.period))).Nodup ∧
        (∀ o w : String, (o, w) ∈ out.map (fun e => (e.name, e.period)) ↔
          ∃ r ∈ (cleanColumnNames df1).rows, ownerKeyOf r = some (o, w)) ∧
        ∀ e ∈ out,
          e.financials.total_payout =
            colSum (ownerRows (cleanColumnNames df1) e.name e.period) "Sum of Total payout" ∧
          e.financials.final_net_payout =
            colSum (ownerRows (cleanColumnNames df1) e.name e.period) "Final Net Payout with Agg Fee" ∧
          e.financials.ad_fees =
            colSum (ownerRows (cleanColumnNames df1) e.name e.period) "ad_fee" ∧
          e.financials.aggregator_fee =
            colMax (ownerRows (cleanColumnNames df1) e.name e.period) "Additional Fees" ∧
          ∀ rst ∈ e.restaurants, ∀ pl ∈ rst.platforms,
            pl.orders = pyInt (colSum
              (platRows (cleanColumnNames df1) e.name e.period rst.name pl.platform)
              "Sum of Order Count") ∧
            pl.gross_pay = colSum
              (platRows (cleanColumnNames df1) e.name e.period rst.name pl.platform)
              "Sum of Total payout") ∧
    invoiceProcessorRun c1Df =
      some [⟨"A", "W1", [⟨"R1", [⟨"DoorDash", 5, 50, 0, 0, 0, 0, 45, 0⟩]⟩],
        ⟨50, 45, 0, 5⟩⟩] := by
  constructor
  · intro df df1 hclean hv hmf
    refine ⟨_, invoiceProcessorRun_eq df df1 hclean hv hmf, ?_, ?_, ?_⟩
    · rw [run_keys_eq]
      exact groupby_keys_nodup _ _ _
    · intro o w
      rw [run_keys_eq]
      exact groupby_keys_mem _ _ _ (o, w)
    · intro e he
      obtain ⟨g, hg, rfl⟩ := List.mem_map.mp he
      have hsnd := groupby_mem_snd ownerKeyOf tupLe (cleanColumnNames df1).rows g hg
      have hor : ownerRows (cleanColumnNames df1) (ownerRecord g.1 g.2).name
          (ownerRecord g.1 g.2).period = g.2 := hsnd.symm
      rw [hor]
      refine ⟨rfl, rfl, rfl, rfl, ?_⟩
      intro rst hrst
      simp only [ownerRecord] at hrst
      obtain ⟨g2, hg2, rfl⟩ := List.mem_map.mp hrst
      have hsnd2 := groupby_mem_snd restKeyOf pyStrLe g.2 g2 hg2
      intro pl hpl
      simp only [restaurantRecord] at hpl
      obtain ⟨g3, hg3, rfl⟩ := List.mem_map.mp hpl
      have hsnd3 := groupby_mem_snd platKeyOf pyStrLe g2.2 g3 hg3
      have hpr : platRows (cleanColumnNames df1) (ownerRecord g.1 g.2).name
          (ownerRecord g.1 g.2).period (restaurantRecord g2.1 g2.2).name
          (platformRecord g3.1 g3.2).platform = g3.2 := by
        unfold platRows
        rw [hor]
        simp only [platformRecord, restaurantRecord]
        rw [← hsnd2, ← hsnd3]
      rw [hpr]
      exact ⟨rfl, rfl⟩
  · have hclean : clean_monetary_columns c1Df = some c1Df := by decide
    have hv : validate_data c1Df = some true := by decide
    have hmf : "Sum of Marketplace fee" ∈ (cleanColumnNames c1Df).cols := by decide
    rw [invoiceProcessorRun_eq c1Df c1Df hclean hv hmf]
    have hcc : cleanColumnNames c1Df = c1Df := by decide
    rw [hcc]
    have hg : groupby ownerKeyOf tupLe c1Df.rows = [(("A", "W1"), c1Df.rows)] := by
      decide
    have hr : groupby restKeyOf pyStrLe c1Df.rows = [("R1", c1Df.rows)] := by decide
    have hp : groupby platKeyOf pyStrLe c1Df.rows = [("DoorDash", c1Df.rows)] := by
      decide
    rw [hg]
    simp only [List.map_cons, List.map_nil, ownerRecord, restaurantRecord,
      platformRecord, hr, hp]
    have hOC : c1Df.rows.map (fun r => cellQ (getCell r "Sum of Order Count")) =
        [2, 3] := by decide
    have hTP : c1Df.rows.map (fun r => cellQ (getCell r "Sum of Total payout")) =
        [20, 30] := by decide
    have hFN : c1Df.rows.map
        (fun r => cellQ (getCell r "Final Net Payout with Agg Fee")) = [18, 27] := by
      decide
    have hAD : c1Df.rows.map (fun r => cellQ (getCell r "ad_fee")) = [0, 0] := by
      decide
    have hAF : c1Df.rows.map (fun r => cellQ (getCell r "Additional Fees")) =
        [5, 5] := by decide
    have hPT : c1Df.rows.map (fun r => cellQ (getCell r "Sum of Passed on Tax")) =
        [0, 0] := by decide
    have hMT : c1Df.rows.map
        (fun r => cellQ (getCell r "Sum of Marketplace Facilitator Tax")) = [0, 0] := by
      decide
    have hSS : c1Df.rows.map
        (fun r => cellQ (getCell r "Sum of Sales (excl. tax)")) = [0, 0] := by decide
    have hMF : c1Df.rows.map (fun r => cellQ (getCell r "Sum of Marketplace fee")) =
        [0, 0] := by decide
    simp only [colSum, colMax, hOC, hTP, hFN, hAD, hAF, hPT, hMT, hSS, hMF]
    norm_num [pyInt, List.sum_cons, List.sum_nil, List.foldl]

/-- C1 witness: the universal clause applied at the concrete two-row
example frame. -/
theorem C1_owner_period_aggregation_witness :
    ∃ out, invoiceProcessorRun c1Df = some out ∧
      (out.map (fun e => (e.name, e.period))).Nodup ∧
      (∀ o w : String, (o, w) ∈ out.map (fun e => (e.name, e.period)) ↔
        ∃ r ∈ (cleanColumnNames c1Df).rows, ownerKeyOf r = some (o, w)) ∧
      ∀ e ∈ out,
        e.financials.total_payout =
          colSum (ownerRows (cleanColumnNames c1Df) e.name e.period) "Sum of Total payout" ∧
        e.financials.final_net_payout =
          colSum (ownerRows (cleanColumnNames c1Df) e.name e.period) "Final Net Payout with Agg Fee" ∧
        e.financials.ad_fees =
          colSum (ownerRows (cleanColumnNames c1Df) e.name e.period) "ad_fee" ∧
        e.financials.aggregator_fee =
          colMax (ownerRows (cleanColumnNames c1Df) e.name e.period) "Additional Fees" ∧
        ∀ rst ∈ e.restaurants, ∀ pl ∈ rst.platforms,
          pl.orders = pyInt (colSum
            (platRows (cleanColumnNames c1Df) e.name e.period rst.name pl.platform)
            "Sum of Order Count") ∧
          pl.gross_pay = colSum
            (platRows (cleanColumnNames c1Df) e.name e.period rst.name pl.platform)
            "Sum of Total payout" :=
  C1_owner_period_aggregation.1 c1Df c1Df (by decide) (by decide) (by decide)

/-- C6 counterexample: a source table whose first-encountered owner order
is B then A produces output owners A then B — pandas `groupby` iterates
groups in ascending sorted key order (its default `sort=True`), not in
first-encountered order. -/
theorem C6_first_seen_order_counterexample :
    (invoiceProcessorRun c6Df).map (fun out => out.map OwnerInfo.name) =
      some ["A", "B"] ∧
    firstSeen ((cleanColumnNames c6Df).rows.filterMap ownerKeyOf) =
      [("B", "W1"), ("A", "W1")] ∧
    (["A", "B"] : List String) ≠ ["B", "A"] := by
  refine ⟨?_, by decide, by decide⟩
  have hclean : clean_monetary_columns c6Df = some c6Df := by decide
  have hv : validate_data c6Df = some true := by decide
  have hmf : "Sum of Marketplace fee" ∈ (cleanColumnNames c6Df).cols := by decide
  rw [invoiceProcessorRun_eq c6Df c6Df hclean hv hmf]
  have hg : groupby ownerKeyOf tupLe (cleanColumnNames c6Df).rows =
      [(("A", "W1"), [aggRow "A" "W1" "R" "DoorDash" 2 20 18 2]),
       (("B", "W1"), [aggRow "B" "W1" "R" "DoorDash" 1 10 9 1])] := by decide
  rw [hg]
  rfl

/-- C6 (amended): owner-period groups appear in ascending sorted order of
their (owner, period) keys — a permutation of the distinct keys in
first-encountered order, re-sorted — and the nested restaurant and
platform groups are likewise sorted by name, because every `groupby` in
`process_invoices` uses pandas' default `sort=True`. -/
theorem C6_groups_in_sorted_key_order (df df1 : DataFrame)
    (hclean : clean_monetary_columns df = some df1)
    (hv : validate_data df1 = some true)
    (hmf : "Sum of Marketplace fee" ∈ (cleanColumnNames df1).cols) :
    ∃ out, invoiceProcessorRun df = some out ∧
      (out.map (fun e => (e.name, e.period))).Sorted tupLe ∧
      (out.map (fun e => (e.name, e.period))).Perm
        (firstSeen ((cleanColumnNames df1).rows.filterMap ownerKeyOf)) ∧
      ∀ e ∈ out, (e.restaurants.map RestaurantInfo.name).Sorted pyStrLe ∧
        ∀ rst ∈ e.restaurants,
          (rst.platforms.map PlatformInfo.platform).Sorted pyStrLe := by
  refine ⟨_, invoiceProcessorRun_eq df df1 hclean hv hmf, ?_, ?_, ?_⟩
  · rw [run_keys_eq]
    exact groupby_keys_sorted _ _ tupLe_total (fun a b c hab hbc => tupLe_trans hab hbc) _
  · rw [run_keys_eq]
    exact groupby_keys_perm_firstSeen _ _ _
  · intro e he
    obtain ⟨g, _, rfl⟩ := List.mem_map.mp he
    constructor
    · have : (ownerRecord g.1 g.2).restaurants.map RestaurantInfo.name =
          (groupby restKeyOf pyStrLe g.2).map Prod.fst := by
        simp only [ownerRecord]
        rw [List.map_map]
        rfl
      rw [this]
      exact groupby_keys_sorted _ _ pyStrLe_total
        (fun a b c hab hbc => pyStrLe_trans hab hbc) _
    · intro rst hrst
      simp only [ownerRecord] at hrst
      obtain ⟨g2, _, rfl⟩ := List.mem_map.mp hrst
      have : (restaurantRecord g2.1 g2.2).platforms.map PlatformInfo.platform =
          (groupby platKeyOf pyStrLe g2.2).map Prod.fst := by
        simp only [restaurantRecord]
        rw [List.map_map]
        rfl
      rw [this]
      exact groupby_keys_sorted _ _ pyStrLe_total
        (fun a b c hab hbc => pyStrLe_trans hab hbc) _

/-- C6 witness: the amended theorem applied at the two-row example frame. -/
theorem C6_groups_in_sorted_key_order_witness :
    ∃ out, invoiceProcessorRun c1Df = some out ∧
      (out.map (fun e => (e.name, e.period))).Sorted tupLe ∧
      (out.map (fun e => (e.name, e.period))).Perm
        (firstSeen ((cleanColumnNames c1Df).rows.filterMap ownerKeyOf)) ∧
      ∀ e ∈ out, (e.restaurants.map RestaurantInfo.name).Sorted pyStrLe ∧
        ∀ rst ∈ e.restaurants,
          (rst.platforms.map PlatformInfo.platform).Sorted pyStrLe :=
  C6_groups_in_sorted_key_order c1Df c1Df (by decide) (by decide) (by decide)

end InvoiceGen
